import Mathlib

/-!
Shallow embedding of the variable-length batch container subsystem of the
repository (`src/visgator/utils/torch.py`): the `Nested3DTensor` and
`Nested4DTensor` padded-batch containers and the `Device` compute-context
selector.

Modelling conventions:
* A rank-k tensor is a structure carrying its shape (`d0`, `d1`, ...) plus its
  entries as nested lists; torch tensors always keep shape and storage
  consistent, which here is the well-formedness predicate `wf`.
* Numeric entries are `Int` (no arithmetic is performed on them, only copying
  and padding), boolean masks are `Bool`.
* Fallible Python code (raised exceptions) is modelled with `Except String`.
* Methods that may mutate the receiver (`mask`, which fills the lazy cache,
  and `to`, which does not mutate) are modelled as state transformers
  returning `(result, receiver after the call)`.
* Compute devices are abstracted away: `tensor.to(device)` preserves shape and
  values, so the embedding of `to` keeps the arrays unchanged and records only
  the construction of the new container from the receiver's fields.
* Python strings handed to `Device` are modelled as `List Char` with
  executable models of `str.split`, `str.upper`, `str.strip` and `int(...)`,
  and the CUDA device count (`torch.cuda.device_count()`) is an explicit
  parameter `cudaCount`.
* `torch.Tensor.copy_` broadcasts a source dimension of size 1 to the
  destination size and otherwise requires equal sizes; `copyBroadcast2` and
  `copyBroadcast3` model this shape rule for the two copies the source
  performs (inside `pad_sequence` and in `Nested4DTensor.from_tensors`).
-/

/-- Rank-2 array with explicit shape `d0 × d1` (rows of entries). -/
structure Arr2 (α : Type) where
  d0 : Nat
  d1 : Nat
  elts : List (List α)
deriving DecidableEq

/-- Rank-3 array with explicit shape `d0 × d1 × d2`. -/
structure Arr3 (α : Type) where
  d0 : Nat
  d1 : Nat
  d2 : Nat
  elts : List (List (List α))
deriving DecidableEq

/-- Rank-4 array with explicit shape `d0 × d1 × d2 × d3`. -/
structure Arr4 (α : Type) where
  d0 : Nat
  d1 : Nat
  d2 : Nat
  d3 : Nat
  elts : List (List (List (List α)))
deriving DecidableEq

/-- Well-formedness: the storage of a rank-2 array matches its shape. -/
def Arr2.wf {α : Type} (a : Arr2 α) : Prop :=
  a.elts.length = a.d0 ∧ ∀ r ∈ a.elts, r.length = a.d1

/-- Well-formedness: the storage of a rank-3 array matches its shape. -/
def Arr3.wf {α : Type} (a : Arr3 α) : Prop :=
  a.elts.length = a.d0 ∧ ∀ m ∈ a.elts, m.length = a.d1 ∧ ∀ r ∈ m, r.length = a.d2

/-- Well-formedness: the storage of a rank-4 array matches its shape. -/
def Arr4.wf {α : Type} (a : Arr4 α) : Prop :=
  a.elts.length = a.d0 ∧
    ∀ c ∈ a.elts, c.length = a.d1 ∧ ∀ m ∈ c, m.length = a.d2 ∧ ∀ r ∈ m, r.length = a.d3

instance {α : Type} [DecidableEq α] (a : Arr2 α) : Decidable a.wf := by
  unfold Arr2.wf; infer_instance

instance {α : Type} [DecidableEq α] (a : Arr3 α) : Decidable a.wf := by
  unfold Arr3.wf; infer_instance

instance {α : Type} [DecidableEq α] (a : Arr4 α) : Decidable a.wf := by
  unfold Arr4.wf; infer_instance

/-- Entry of a rank-2 array at `(i, j)`, with a default for out-of-range access. -/
def at2 {α : Type} (a : Arr2 α) (i j : Nat) (d : α) : α :=
  (a.elts.getD i []).getD j d

/-- Entry of a rank-3 array at `(i, j, k)`, with a default for out-of-range access. -/
def at3 {α : Type} (a : Arr3 α) (i j k : Nat) (d : α) : α :=
  ((a.elts.getD i []).getD j []).getD k d

/-- Entry of a rank-4 array at `(i, j, k, l)`, with a default for out-of-range access. -/
def at4 {α : Type} (a : Arr4 α) (i j k l : Nat) (d : α) : α :=
  (((a.elts.getD i []).getD j []).getD k []).getD l d

/-- Error-propagating map over a list, mirroring a Python loop whose body may
raise: the first failing element aborts the whole computation. -/
def exceptMap {α β : Type} (f : α → Except String β) : List α → Except String (List β)
  | [] => Except.ok []
  | a :: l =>
    match f a with
    | Except.error e => Except.error e
    | Except.ok b =>
      match exceptMap f l with
      | Except.error e => Except.error e
      | Except.ok bs => Except.ok (b :: bs)

/-- Maximum of a list of naturals starting from 0, mirroring both the
`max_element` used by `pad_sequence` and the explicit
`max_height, max_width = 0, 0` accumulation loop in
`Nested4DTensor.from_tensors`. -/
def listMax (l : List Nat) : Nat :=
  l.foldl Nat.max 0

/-- Concatenation of a list of lists (row-major flattening of a matrix). -/
def listJoin {α : Type} : List (List α) → List α
  | [] => []
  | l :: ls => l ++ listJoin ls

/-- Slice assignment `row[:len] = False` on a boolean row: the first
`min len row.length` entries become `False`, the rest are untouched (Python
slices clamp, they never raise). -/
def sliceAssignFalse (len : Nat) (row : List Bool) : List Bool :=
  List.replicate (min len row.length) false ++ row.drop len

/-- Slice assignment `m[:h, :w] = False` on a boolean matrix: the first
`min h m.length` rows get their first `w` entries cleared, the rest are
untouched. -/
def sliceAssignFalse2 (h w : Nat) (m : List (List Bool)) : List (List Bool) :=
  (m.take h).map (sliceAssignFalse w) ++ m.drop h

/-- Python loop `for i, length in enumerate(sizes): mask[i, :length] = False`,
walking the rows of the all-`True` mask in lockstep with `sizes`. -/
def maskRows : List Nat → List (List Bool) → List (List Bool)
  | [], rows => rows
  | _ :: _, [] => []
  | len :: ls, row :: rows => sliceAssignFalse len row :: maskRows ls rows

/-- Python loop `for i, (height, width) in enumerate(sizes):
mask[i, :height, :width] = False`. -/
def maskRows2d : List (Nat × Nat) → List (List (List Bool)) → List (List (List Bool))
  | [], rows => rows
  | _ :: _, [] => []
  | hw :: ls, m :: ms => sliceAssignFalse2 hw.1 hw.2 m :: maskRows2d ls ms

/-- Shape rule of `dest.copy_(src)` for the copy inside `pad_sequence`: the
destination region is `src.d0 × destCols`; the source is accepted as-is when
its trailing dimension equals `destCols`, broadcast when it is 1, and rejected
otherwise. -/
def copyBroadcast2 (src : Arr2 Int) (destCols : Nat) : Except String (List (List Int)) :=
  if src.d1 = destCols then Except.ok src.elts
  else if src.d1 = 1 then
    Except.ok (src.elts.map (fun r => List.replicate destCols (r.getD 0 0)))
  else Except.error "copy size mismatch"

/-- Shape rule of `dest.copy_(src)` for the copy in
`Nested4DTensor.from_tensors`: the destination region is
`destC × src.d1 × src.d2`; the source channels are accepted as-is when
`src.d0 = destC`, broadcast when `src.d0 = 1`, and rejected otherwise. -/
def copyBroadcast3 (src : Arr3 Int) (destC : Nat) : Except String (List (List (List Int))) :=
  if src.d0 = destC then Except.ok src.elts
  else if src.d0 = 1 then Except.ok (List.replicate destC (src.elts.getD 0 []))
  else Except.error "copy size mismatch"

/-- Channel of a padded canvas: the `h × w` source channel sits at the
top-left corner of an `maxH × maxW` canvas filled with `padValue` (the
`new_full` canvas whose region `[:, :h, :w]` was overwritten by `copy_`). -/
def placeCanvas (ch : List (List Int)) (w maxH maxW : Nat) (padValue : Int) :
    List (List Int) :=
  ch.map (fun r => r ++ List.replicate (maxW - w) padValue) ++
    List.replicate (maxH - ch.length) (List.replicate maxW padValue)

/-- Model of `torch.nn.utils.rnn.pad_sequence(tensors, batch_first=True,
padding_value=pad)`: raises on an empty list; otherwise takes the trailing
dimension from the first sequence, pads every sequence to the maximal length
along dimension 0 and stacks them.  Each sequence is written into the output
with `copy_`, hence the broadcast rule of `copyBroadcast2`. -/
def pad_sequence (tensors : List (Arr2 Int)) (padValue : Int) : Except String (Arr3 Int) :=
  match tensors with
  | [] => Except.error "received an empty list of sequences"
  | t0 :: _ =>
    let d := t0.d1
    let maxLen := listMax (tensors.map Arr2.d0)
    match exceptMap (fun t =>
        match copyBroadcast2 t d with
        | Except.error e => Except.error e
        | Except.ok rows =>
          Except.ok (rows ++ List.replicate (maxLen - t.d0) (List.replicate d padValue)))
      tensors with
    | Except.error e => Except.error e
    | Except.ok rows => Except.ok ⟨tensors.length, maxLen, d, rows⟩

/-- Collection of 2D tensors with different sizes, padded into one
`N × L × D` tensor; `_mask` is the lazily cached padding mask. -/
structure Nested3DTensor where
  _tensor : Arr3 Int
  _sizes : List Nat
  _mask : Option (Arr2 Bool)
deriving DecidableEq

/-- Constructor `Nested3DTensor.__init__`: raises unless the leading dimension
of the padded tensor equals the number of sizes. -/
def Nested3DTensor.init (tensor : Arr3 Int) (sizes : List Nat)
    (mask : Option (Arr2 Bool)) : Except String Nested3DTensor :=
  if tensor.d0 = sizes.length then Except.ok ⟨tensor, sizes, mask⟩
  else Except.error "Number of tensors must match number of sizes."

/-- Classmethod `Nested3DTensor.from_tensors`: records each element's leading
extent as its size and pads the elements with `pad_sequence`. -/
def Nested3DTensor.from_tensors (tensors : List (Arr2 Int)) (padValue : Int) :
    Except String Nested3DTensor :=
  let sizes := tensors.map Arr2.d0
  match pad_sequence tensors padValue with
  | Except.error e => Except.error e
  | Except.ok t => Nested3DTensor.init t sizes none

/-- Mask computation of `Nested3DTensor.mask`: an all-`True` `N × L` tensor
(`new_ones`) whose row `i` has its first `sizes[i]` entries cleared. -/
def Nested3DTensor.computeMask (x : Nested3DTensor) : Arr2 Bool :=
  ⟨x._tensor.d0, x._tensor.d1,
    maskRows x._sizes (List.replicate x._tensor.d0 (List.replicate x._tensor.d1 true))⟩

/-- Property `Nested3DTensor.mask`: returns the cached mask if present,
otherwise computes it, stores it in the cache and returns it.  The second
component is the receiver after the call. -/
def Nested3DTensor.mask (x : Nested3DTensor) : Arr2 Bool × Nested3DTensor :=
  match x._mask with
  | some m => (m, x)
  | none =>
    let m := Nested3DTensor.computeMask x
    (m, ⟨x._tensor, x._sizes, some m⟩)

/-- Method `Nested3DTensor.to`: builds a new container from the receiver's
tensor, sizes and (when cached) mask; devices are abstracted away, so the
moved arrays keep their shape and values.  The second component is the
receiver after the call (the method performs no writes). -/
def Nested3DTensor.to (x : Nested3DTensor) : Nested3DTensor × Nested3DTensor :=
  (⟨x._tensor, x._sizes,
    match x._mask with
    | some m => some m
    | none => none⟩, x)

/-- Method `Nested3DTensor.to_list`: element `i` is the slice
`tensor[i, :sizes[i]]` (slices clamp to the padded extent). -/
def Nested3DTensor.to_list (x : Nested3DTensor) : List (Arr2 Int) :=
  (List.range x._sizes.length).map (fun i =>
    let len := x._sizes.getD i 0
    ⟨min len x._tensor.d1, x._tensor.d2, (x._tensor.elts.getD i []).take len⟩)

/-- Collection of images with different sizes, padded into one
`N × C × H × W` tensor; `_mask` is the lazily cached padding mask. -/
structure Nested4DTensor where
  _tensor : Arr4 Int
  _sizes : List (Nat × Nat)
  _mask : Option (Arr3 Bool)
deriving DecidableEq

/-- Constructor `Nested4DTensor.__init__`: raises unless the leading dimension
of the padded tensor equals the number of sizes. -/
def Nested4DTensor.init (tensor : Arr4 Int) (sizes : List (Nat × Nat))
    (mask : Option (Arr3 Bool)) : Except String Nested4DTensor :=
  if tensor.d0 = sizes.length then Except.ok ⟨tensor, sizes, mask⟩
  else Except.error "Number of images must match number of sizes."

/-- Classmethod `Nested4DTensor.from_tensors`: raises on an empty list
(`tensors[0]` is out of range); otherwise records each element's spatial
extents, fills an `N × C × maxH × maxW` canvas with `padValue` and copies each
element to the top-left corner of its canvas with `copy_` (hence the channel
broadcast rule of `copyBroadcast3`). -/
def Nested4DTensor.from_tensors (tensors : List (Arr3 Int)) (padValue : Int) :
    Except String Nested4DTensor :=
  match tensors with
  | [] => Except.error "list index out of range"
  | t0 :: _ =>
    let sizes := tensors.map (fun t => (t.d1, t.d2))
    let maxH := listMax (tensors.map Arr3.d1)
    let maxW := listMax (tensors.map Arr3.d2)
    match exceptMap (fun t =>
        match copyBroadcast3 t t0.d0 with
        | Except.error e => Except.error e
        | Except.ok chs =>
          Except.ok (chs.map (fun ch => placeCanvas ch t.d2 maxH maxW padValue)))
      tensors with
    | Except.error e => Except.error e
    | Except.ok elts =>
      Nested4DTensor.init ⟨tensors.length, t0.d0, maxH, maxW, elts⟩ sizes none

/-- Mask computation of `Nested4DTensor.mask`: an all-`True` `N × H × W`
tensor whose sample `i` has its top-left `sizes[i]` rectangle cleared. -/
def Nested4DTensor.computeMask (x : Nested4DTensor) : Arr3 Bool :=
  ⟨x._tensor.d0, x._tensor.d2, x._tensor.d3,
    maskRows2d x._sizes
      (List.replicate x._tensor.d0
        (List.replicate x._tensor.d2 (List.replicate x._tensor.d3 true)))⟩

/-- Property `Nested4DTensor.mask`: returns the cached mask if present,
otherwise computes it, stores it in the cache and returns it.  The second
component is the receiver after the call. -/
def Nested4DTensor.mask (x : Nested4DTensor) : Arr3 Bool × Nested4DTensor :=
  match x._mask with
  | some m => (m, x)
  | none =>
    let m := Nested4DTensor.computeMask x
    (m, ⟨x._tensor, x._sizes, some m⟩)

/-- Method `Nested4DTensor.to`: builds a new container from the receiver's
tensor, sizes and (when cached) mask; devices are abstracted away.  The second
component is the receiver after the call (the method performs no writes). -/
def Nested4DTensor.to (x : Nested4DTensor) : Nested4DTensor × Nested4DTensor :=
  (⟨x._tensor, x._sizes,
    match x._mask with
    | some m => some m
    | none => none⟩, x)

/-- Method `Nested4DTensor.to_list`: element `i` is the slice
`tensor[i, :, :h_i, :w_i]` (slices clamp to the padded extents). -/
def Nested4DTensor.to_list (x : Nested4DTensor) : List (Arr3 Int) :=
  (List.range x._sizes.length).map (fun i =>
    let hw := x._sizes.getD i (0, 0)
    ⟨x._tensor.d1, min hw.1 x._tensor.d2, min hw.2 x._tensor.d3,
      (x._tensor.elts.getD i []).map (fun ch => (ch.take hw.1).map (fun r => r.take hw.2))⟩)

/-- Transpose of the last two dimensions of one sample: `torch.transpose(1, 2)`
on an `r × c` matrix yields the `c × r` matrix with entries swapped. -/
def transpose2 (r c : Nat) (m : List (List Int)) : List (List Int) :=
  (List.range c).map (fun j => (List.range r).map (fun i => (m.getD i []).getD j 0))

/-- Tensor operation `tensor.flatten(2)` on an `N × C × H × W` tensor: each
channel's rows are concatenated row-major into a single axis of length `H·W`. -/
def Arr4.flatten2 (a : Arr4 Int) : Arr3 Int :=
  ⟨a.d0, a.d1, a.d2 * a.d3, a.elts.map (fun chs => chs.map listJoin)⟩

/-- Tensor operation `tensor.transpose(1, 2)` on an `N × C × K` tensor,
yielding the `N × K × C` tensor with the last two axes swapped. -/
def Arr3.transpose12 (a : Arr3 Int) : Arr3 Int :=
  ⟨a.d0, a.d2, a.d1, a.elts.map (transpose2 a.d1 a.d2)⟩

/-- Tensor operation `mask.flatten(1)` on an `N × H × W` boolean tensor: each
sample's rows are concatenated row-major into a single axis of length `H·W`. -/
def Arr3.flatten1 (a : Arr3 Bool) : Arr2 Bool :=
  ⟨a.d0, a.d1 * a.d2, a.elts.map listJoin⟩

/-- Method `Nested4DTensor.flatten`: reinterprets the batch as a
`Nested3DTensor` with data `tensor.flatten(2).transpose(1, 2)`, sizes
`h_i * w_i`, and the row-major flattening of the cached mask when present
(`None` otherwise); the result goes through the `Nested3DTensor` constructor. -/
def Nested4DTensor.flatten (x : Nested4DTensor) : Except String Nested3DTensor :=
  let tensor := (Arr4.flatten2 x._tensor).transpose12
  let sizes := x._sizes.map (fun hw => hw.1 * hw.2)
  let mask :=
    match x._mask with
    | some m => some (Arr3.flatten1 m)
    | none => none
  Nested3DTensor.init tensor sizes mask

/-- Enumeration `DeviceType` with members CPU and CUDA. -/
inductive DeviceType where
  | CPU
  | CUDA
deriving DecidableEq

/-- Python string as a list of characters (torch-free executable model). -/
abbrev PyStr := List Char

/-- Model of `str.split(sep)` for a single-character separator: Python's
split, which yields `[""]` on the empty string and keeps empty fields. -/
def pySplit (sep : Char) : PyStr → List PyStr
  | [] => [[]]
  | c :: cs =>
    match pySplit sep cs with
    | r :: rs => if c = sep then [] :: r :: rs else (c :: r) :: rs
    | [] => [[c]]

/-- Model of `str.strip()`: drop ASCII whitespace from both ends. -/
def pyStrip (s : PyStr) : PyStr :=
  ((s.dropWhile (fun c => c = ' ')).reverse.dropWhile (fun c => c = ' ')).reverse

/-- Digit accumulation for `int(...)`: fails on any non-digit character. -/
def digitsToNat : List Char → Nat → Option Nat
  | [], acc => some acc
  | c :: cs, acc =>
    if c.isDigit then digitsToNat cs (acc * 10 + (c.toNat - 48)) else none

/-- Model of Python `int(s)`: optional sign followed by a non-empty digit
string, with surrounding whitespace allowed; raises `ValueError` otherwise. -/
def pyInt (value : PyStr) : Except String Int :=
  match pyStrip value with
  | [] => Except.error "invalid literal for int"
  | '-' :: ds =>
    match ds, digitsToNat ds 0 with
    | _ :: _, some n => Except.ok (-(n : Int))
    | _, _ => Except.error "invalid literal for int"
  | '+' :: ds =>
    match ds, digitsToNat ds 0 with
    | _ :: _, some n => Except.ok (n : Int)
    | _, _ => Except.error "invalid literal for int"
  | ds =>
    match digitsToNat ds 0 with
    | some n => Except.ok (n : Int)
    | none => Except.error "invalid literal for int"

/-- Classmethod `DeviceType.from_str`: enum lookup by name on
`value.upper().strip()`; raises `KeyError` for an unknown name. -/
def DeviceType.from_str (value : PyStr) : Except String DeviceType :=
  let key := pyStrip (value.map Char.toUpper)
  if key = "CPU".toList then Except.ok DeviceType.CPU
  else if key = "CUDA".toList then Except.ok DeviceType.CUDA
  else Except.error "KeyError"

/-- Compute-context selector: a device type plus, for CUDA only, a validated
device index. -/
structure Device where
  _type : DeviceType
  _id : Option Nat
deriving DecidableEq

/-- Constructor `Device.__init__`, with the environment's CUDA device count
(`torch.cuda.device_count()`) as the explicit parameter `cudaCount`: parses
the type; for CPU any supplied index is ignored; for CUDA the index defaults
to 0 and must satisfy `0 ≤ id < cudaCount`. -/
def Device.init (cudaCount : Nat) (type : PyStr) (id : Option Int) :
    Except String Device :=
  match DeviceType.from_str type with
  | Except.error e => Except.error e
  | Except.ok DeviceType.CPU => Except.ok ⟨DeviceType.CPU, none⟩
  | Except.ok DeviceType.CUDA =>
    let i := id.getD 0
    if i < 0 then Except.error "Invalid CUDA device ID. Must be >= 0."
    else if (cudaCount : Int) ≤ i then
      Except.error "Invalid CUDA device ID. Not that many devices available."
    else Except.ok ⟨DeviceType.CUDA, some i.toNat⟩

/-- Classmethod `Device.from_str`: splits the specifier on `":"`; one part
yields `Device(part)`, two or more parts yield `Device(parts[0],
int(parts[1]))` (the index conversion may itself raise). -/
def Device.from_str (cudaCount : Nat) (value : PyStr) : Except String Device :=
  match pySplit ':' value with
  | [part] => Device.init cudaCount part none
  | part :: idxStr :: _ =>
    match pyInt idxStr with
    | Except.error e => Except.error e
    | Except.ok i => Device.init cudaCount part (some i)
  | [] => Except.error "unreachable"

deriving instance DecidableEq for Except

/-! Helper lemmas about lists, used to reason about the embedded tensor
operations. -/

theorem getD_append_lt {α : Type} (l1 l2 : List α) (i : Nat) (d : α) (h : i < l1.length) :
    (l1 ++ l2).getD i d = l1.getD i d := by
  simp [List.getD_eq_getElem?_getD, List.getElem?_append_left h]

theorem getD_append_ge {α : Type} (l1 l2 : List α) (i : Nat) (d : α) (h : l1.length ≤ i) :
    (l1 ++ l2).getD i d = l2.getD (i - l1.length) d := by
  simp [List.getD_eq_getElem?_getD, List.getElem?_append_right h]

theorem getD_replicate_lt {α : Type} (n i : Nat) (a d : α) (h : i < n) :
    (List.replicate n a).getD i d = a := by
  simp [List.getD_eq_getElem?_getD, List.getElem?_replicate, h]

theorem getD_rangeMap {α : Type} (n k : Nat) (f : Nat → α) (d : α) (h : k < n) :
    ((List.range n).map f).getD k d = f k := by
  simp [List.getD_eq_getElem?_getD, List.getElem?_map, List.getElem?_range h]

theorem getD_map_lt {α β : Type} (f : α → β) (l : List α) (i : Nat) (d : β) (d2 : α)
    (h : i < l.length) :
    (l.map f).getD i d = f (l.getD i d2) := by
  simp [List.getD_eq_getElem?_getD, List.getElem?_map, List.getElem?_eq_getElem h,
    List.getD_eq_getElem l d2 h]

theorem list_ext_getD {α : Type} (d : α) (l1 l2 : List α) (hlen : l1.length = l2.length)
    (h : ∀ i, i < l1.length → l1.getD i d = l2.getD i d) : l1 = l2 := by
  refine List.ext_getElem hlen (fun n h1 h2 => ?_)
  have hn := h n h1
  rwa [List.getD_eq_getElem l1 d h1, List.getD_eq_getElem l2 d h2] at hn

theorem le_foldl_max (l : List Nat) : ∀ a : Nat, a ≤ l.foldl Nat.max a := by
  induction l with
  | nil => intro a; exact Nat.le_refl a
  | cons b l ih => intro a; exact Nat.le_trans (Nat.le_max_left a b) (ih (Nat.max a b))

theorem mem_le_foldl_max (x : Nat) :
    ∀ l : List Nat, x ∈ l → ∀ a : Nat, x ≤ l.foldl Nat.max a := by
  intro l
  induction l with
  | nil => intro h; exact absurd h (List.not_mem_nil x)
  | cons b l ih =>
    intro h a
    rcases List.mem_cons.mp h with h1 | h2
    · subst h1; exact Nat.le_trans (Nat.le_max_right a x) (le_foldl_max l (Nat.max a x))
    · exact ih h2 (Nat.max a b)

theorem le_listMax (l : List Nat) (x : Nat) (h : x ∈ l) : x ≤ listMax l :=
  mem_le_foldl_max x l h 0

theorem index_lt (y x h w : Nat) (hy : y < h) (hx : x < w) : y * w + x < h * w :=
  calc y * w + x < y * w + w := by omega
  _ = (y + 1) * w := (Nat.succ_mul y w).symm
  _ ≤ h * w := Nat.mul_le_mul_right w hy

theorem listJoin_length {α : Type} (w : Nat) :
    ∀ rows : List (List α), (∀ r ∈ rows, r.length = w) →
      (listJoin rows).length = rows.length * w := by
  intro rows
  induction rows with
  | nil => intro; simp [listJoin]
  | cons r rows ih =>
    intro hw
    show (r ++ listJoin rows).length = (rows.length + 1) * w
    rw [List.length_append, hw r (List.mem_cons_self r rows),
      ih (fun s hs => hw s (List.mem_cons_of_mem r hs)), Nat.succ_mul]
    omega

theorem listJoin_getD {α : Type} (w : Nat) (d : α) :
    ∀ (rows : List (List α)) (y x : Nat), (∀ r ∈ rows, r.length = w) →
      y < rows.length → x < w →
      (listJoin rows).getD (y * w + x) d = (rows.getD y []).getD x d := by
  intro rows
  induction rows with
  | nil => intro y x _ hy; exact absurd hy (by simp)
  | cons r rows ih =>
    intro y x hw hy hx
    have hr : r.length = w := hw r (List.mem_cons_self r rows)
    match y with
    | 0 =>
      show (r ++ listJoin rows).getD (0 * w + x) d = r.getD x d
      rw [Nat.zero_mul, Nat.zero_add]
      exact getD_append_lt r _ x d (by omega)
    | y + 1 =>
      show (r ++ listJoin rows).getD ((y + 1) * w + x) d = (rows.getD y []).getD x d
      rw [getD_append_ge r _ _ d (by rw [hr, Nat.succ_mul]; omega)]
      have harith : (y + 1) * w + x - r.length = y * w + x := by
        rw [hr, Nat.succ_mul]; omega
      rw [harith]
      exact ih y x (fun s hs => hw s (List.mem_cons_of_mem r hs)) (by simpa using hy) hx

theorem exceptMap_ok_map {α β : Type} (f : α → Except String β) (g : α → β) :
    ∀ l : List α, (∀ x ∈ l, f x = Except.ok (g x)) →
      exceptMap f l = Except.ok (l.map g) := by
  intro l
  induction l with
  | nil => intro; rfl
  | cons a l ih =>
    intro h
    show (match f a with
      | Except.error e => Except.error e
      | Except.ok b =>
        match exceptMap f l with
        | Except.error e => Except.error e
        | Except.ok bs => Except.ok (b :: bs)) = Except.ok (g a :: l.map g)
    rw [h a (List.mem_cons_self a l), ih (fun x hx => h x (List.mem_cons_of_mem a hx))]

theorem exceptMap_error_of_mem {α β : Type} (f : α → Except String β) (e : String) :
    ∀ (l : List α) (t : α), t ∈ l → f t = Except.error e →
      ∃ e2, exceptMap f l = Except.error e2 := by
  intro l
  induction l with
  | nil => intro t ht; exact absurd ht (List.not_mem_nil t)
  | cons a l ih =>
    intro t ht hft
    show ∃ e2, (match f a with
      | Except.error e => Except.error e
      | Except.ok b =>
        match exceptMap f l with
        | Except.error e => Except.error e
        | Except.ok bs => Except.ok (b :: bs)) = Except.error e2
    rcases ha : f a with ea | b
    · exact ⟨ea, rfl⟩
    · rcases List.mem_cons.mp ht with rfl | hmem
      · rw [ha] at hft; exact absurd hft (by simp)
      · rcases ih t hmem hft with ⟨e2, he2⟩
        rw [he2]
        exact ⟨e2, rfl⟩

theorem sliceAssignFalse_length (len : Nat) (row : List Bool) :
    (sliceAssignFalse len row).length = row.length := by
  unfold sliceAssignFalse
  rw [List.length_append, List.length_replicate, List.length_drop]
  omega

theorem sliceAssignFalse_rep_getD (len c j : Nat) (d : Bool) (h : j < c) :
    (sliceAssignFalse len (List.replicate c true)).getD j d = decide (len ≤ j) := by
  unfold sliceAssignFalse
  rw [List.length_replicate, List.drop_replicate]
  by_cases hj : j < min len c
  · rw [getD_append_lt _ _ _ _ (by simpa using hj), getD_replicate_lt _ _ _ _ hj]
    have hle : ¬ (len ≤ j) := by omega
    simp [hle]
  · rw [getD_append_ge _ _ _ _ (by rw [List.length_replicate]; omega),
      List.length_replicate, getD_replicate_lt _ _ _ _ (by omega)]
    have hle : len ≤ j := by omega
    simp [hle]

theorem sliceAssignFalse2_length (h w : Nat) (m : List (List Bool)) :
    (sliceAssignFalse2 h w m).length = m.length := by
  unfold sliceAssignFalse2
  rw [List.length_append, List.length_map, List.length_take, List.length_drop]
  omega

theorem sliceAssignFalse2_rep_rows (h w r c : Nat) :
    ∀ row ∈ sliceAssignFalse2 h w (List.replicate r (List.replicate c true)),
      row.length = c := by
  intro row hrow
  rcases List.mem_append.mp hrow with h1 | h2
  · rcases List.mem_map.mp h1 with ⟨r0, hr0, rfl⟩
    rw [sliceAssignFalse_length,
      List.eq_of_mem_replicate (List.mem_of_mem_take hr0), List.length_replicate]
  · rw [List.eq_of_mem_replicate (List.mem_of_mem_drop h2), List.length_replicate]

theorem sliceAssignFalse2_rep_getD (h w r c y x : Nat) (d : List Bool) (d2 : Bool)
    (hy : y < r) (hx : x < c) :
    ((sliceAssignFalse2 h w (List.replicate r (List.replicate c true))).getD y d).getD x d2
      = decide (h ≤ y ∨ w ≤ x) := by
  unfold sliceAssignFalse2
  rw [List.take_replicate, List.drop_replicate, List.map_replicate]
  by_cases hyh : y < min h r
  · rw [getD_append_lt _ _ _ _ (by simpa using hyh), getD_replicate_lt _ _ _ _ hyh,
      sliceAssignFalse_rep_getD w c x d2 hx]
    have hno : ¬ (h ≤ y) := by omega
    simp [hno]
  · rw [getD_append_ge _ _ _ _ (by rw [List.length_replicate]; omega),
      List.length_replicate, getD_replicate_lt _ _ _ _ (by omega),
      getD_replicate_lt _ _ _ _ hx]
    have hyes : h ≤ y := by omega
    simp [hyes]

theorem maskRows_getD :
    ∀ (ls : List Nat) (rows : List (List Bool)) (i : Nat), i < ls.length →
      i < rows.length →
      (maskRows ls rows).getD i [] = sliceAssignFalse (ls.getD i 0) (rows.getD i []) := by
  intro ls
  induction ls with
  | nil => intro rows i hi; exact absurd hi (by simp)
  | cons len ls ih =>
    intro rows i hi hi2
    match rows with
    | [] => exact absurd hi2 (by simp)
    | row :: rows =>
      match i with
      | 0 => rfl
      | i + 1 =>
        show (maskRows ls rows).getD i [] = _
        rw [List.getD_cons_succ, List.getD_cons_succ]
        exact ih rows i (by simpa using hi) (by simpa using hi2)

theorem maskRows2d_getD :
    ∀ (ls : List (Nat × Nat)) (ms : List (List (List Bool))) (i : Nat), i < ls.length →
      i < ms.length →
      (maskRows2d ls ms).getD i [] =
        sliceAssignFalse2 (ls.getD i (0, 0)).1 (ls.getD i (0, 0)).2 (ms.getD i []) := by
  intro ls
  induction ls with
  | nil => intro ms i hi; exact absurd hi (by simp)
  | cons hw ls ih =>
    intro ms i hi hi2
    match ms with
    | [] => exact absurd hi2 (by simp)
    | m :: ms =>
      match i with
      | 0 => rfl
      | i + 1 =>
        show (maskRows2d ls ms).getD i [] = _
        rw [List.getD_cons_succ, List.getD_cons_succ]
        exact ih ms i (by simpa using hi) (by simpa using hi2)

theorem computeMask3_at (x : Nested3DTensor) (hinv : x._sizes.length = x._tensor.d0)
    (i j : Nat) (d : Bool) (hi : i < x._tensor.d0) (hj : j < x._tensor.d1) :
    at2 (Nested3DTensor.computeMask x) i j d = decide (x._sizes.getD i 0 ≤ j) := by
  unfold at2 Nested3DTensor.computeMask
  rw [maskRows_getD _ _ i (by omega) (by simp [List.length_replicate]; omega),
    getD_replicate_lt _ _ _ _ hi, sliceAssignFalse_rep_getD _ _ _ _ hj]

theorem computeMask4_at (x : Nested4DTensor) (hinv : x._sizes.length = x._tensor.d0)
    (i y z : Nat) (d : Bool) (hi : i < x._tensor.d0) (hy : y < x._tensor.d2)
    (hz : z < x._tensor.d3) :
    at3 (Nested4DTensor.computeMask x) i y z d =
      decide ((x._sizes.getD i (0, 0)).1 ≤ y ∨ (x._sizes.getD i (0, 0)).2 ≤ z) := by
  unfold at3 Nested4DTensor.computeMask
  rw [maskRows2d_getD _ _ i (by omega) (by simp [List.length_replicate]; omega),
    getD_replicate_lt _ _ _ _ hi, sliceAssignFalse2_rep_getD _ _ _ _ _ _ _ _ hy hz]

theorem computeMask4_row (x : Nested4DTensor) (hinv : x._sizes.length = x._tensor.d0)
    (i : Nat) (hi : i < x._tensor.d0) :
    (Nested4DTensor.computeMask x).elts.getD i [] =
      sliceAssignFalse2 (x._sizes.getD i (0, 0)).1 (x._sizes.getD i (0, 0)).2
        (List.replicate x._tensor.d2 (List.replicate x._tensor.d3 true)) := by
  unfold Nested4DTensor.computeMask
  rw [maskRows2d_getD _ _ i (by omega) (by simp [List.length_replicate]; omega),
    getD_replicate_lt _ _ _ _ hi]

theorem arr2_fields_eq {α : Type} (a b : Arr2 α) (h0 : a.d0 = b.d0) (h1 : a.d1 = b.d1)
    (he : a.elts = b.elts) : a = b := by
  cases a; cases b; simp_all

theorem from_tensors3_eq (x0 : Arr2 Int) (rest : List (Arr2 Int)) (padValue : Int)
    (hD : ∀ t ∈ x0 :: rest, t.d1 = x0.d1) :
    Nested3DTensor.from_tensors (x0 :: rest) padValue =
      Except.ok ⟨⟨(x0 :: rest).length, listMax ((x0 :: rest).map Arr2.d0), x0.d1,
        (x0 :: rest).map (fun t =>
          t.elts ++ List.replicate (listMax ((x0 :: rest).map Arr2.d0) - t.d0)
            (List.replicate x0.d1 padValue))⟩,
        (x0 :: rest).map Arr2.d0, none⟩ := by
  simp only [Nested3DTensor.from_tensors, pad_sequence]
  rw [exceptMap_ok_map _ (fun t =>
    t.elts ++ List.replicate (listMax ((x0 :: rest).map Arr2.d0) - t.d0)
      (List.replicate x0.d1 padValue)) (x0 :: rest) ?hall]
  case hall =>
    intro t ht
    unfold copyBroadcast2
    rw [if_pos (hD t ht)]
  simp only [Nested3DTensor.init]
  rw [if_pos (by simp)]

theorem arr3_fields_eq {α : Type} (a b : Arr3 α) (h0 : a.d0 = b.d0) (h1 : a.d1 = b.d1)
    (h2 : a.d2 = b.d2) (he : a.elts = b.elts) : a = b := by
  cases a; cases b; simp_all

theorem from_tensors4_eq (x0 : Arr3 Int) (rest : List (Arr3 Int)) (padValue : Int)
    (hC : ∀ t ∈ x0 :: rest, t.d0 = x0.d0) :
    Nested4DTensor.from_tensors (x0 :: rest) padValue =
      Except.ok ⟨⟨(x0 :: rest).length, x0.d0, listMax ((x0 :: rest).map Arr3.d1),
        listMax ((x0 :: rest).map Arr3.d2),
        (x0 :: rest).map (fun t =>
          t.elts.map (fun ch => placeCanvas ch t.d2 (listMax ((x0 :: rest).map Arr3.d1))
            (listMax ((x0 :: rest).map Arr3.d2)) padValue))⟩,
        (x0 :: rest).map (fun t => (t.d1, t.d2)), none⟩ := by
  simp only [Nested4DTensor.from_tensors]
  rw [exceptMap_ok_map _ (fun t =>
    t.elts.map (fun ch => placeCanvas ch t.d2 (listMax ((x0 :: rest).map Arr3.d1))
      (listMax ((x0 :: rest).map Arr3.d2)) padValue)) (x0 :: rest) ?hall]
  case hall =>
    intro t ht
    unfold copyBroadcast3
    rw [if_pos (hC t ht)]
  simp only [Nested4DTensor.init]
  rw [if_pos (by simp)]

theorem round_trip3 (x0 : Arr2 Int) (rest : List (Arr2 Int)) (padValue : Int)
    (hw : ∀ t ∈ x0 :: rest, Arr2.wf t) (hD : ∀ t ∈ x0 :: rest, t.d1 = x0.d1) :
    ∃ b, Nested3DTensor.from_tensors (x0 :: rest) padValue = Except.ok b ∧
      Nested3DTensor.to_list b = x0 :: rest := by
  refine ⟨_, from_tensors3_eq x0 rest padValue hD, ?_⟩
  unfold Nested3DTensor.to_list
  dsimp only
  apply list_ext_getD (Arr2.mk 0 0 [])
  · simp
  · intro i hi
    have hi2 : i < (x0 :: rest).length := by simpa using hi
    rw [getD_rangeMap _ _ _ _ (by simpa using hi)]
    have hmem : (x0 :: rest).getD i ⟨0, 0, []⟩ ∈ x0 :: rest := by
      rw [List.getD_eq_getElem _ _ hi2]
      exact List.getElem_mem hi2
    have hwt := hw _ hmem
    rw [getD_map_lt Arr2.d0 (x0 :: rest) i 0 ⟨0, 0, []⟩ hi2,
      getD_map_lt _ (x0 :: rest) i [] ⟨0, 0, []⟩ hi2]
    rw [show (((x0 :: rest).getD i ⟨0, 0, []⟩).elts ++
        List.replicate (listMax ((x0 :: rest).map Arr2.d0) - ((x0 :: rest).getD i ⟨0, 0, []⟩).d0)
          (List.replicate x0.d1 padValue)).take (((x0 :: rest).getD i ⟨0, 0, []⟩).d0) =
        ((x0 :: rest).getD i ⟨0, 0, []⟩).elts from by
      rw [← hwt.1]
      exact List.take_left _ _]
    rw [Nat.min_eq_left (le_listMax _ _ (List.mem_map_of_mem Arr2.d0 hmem))]
    exact arr2_fields_eq _ _ rfl (hD _ hmem).symm rfl

theorem map_eq_self_of_id {α : Type} (l : List α) (f : α → α)
    (h : ∀ a ∈ l, f a = a) : l.map f = l := by
  calc l.map f = l.map id := List.map_congr_left h
  _ = l := List.map_id l

theorem round_trip4 (x0 : Arr3 Int) (rest : List (Arr3 Int)) (padValue : Int)
    (hw : ∀ t ∈ x0 :: rest, Arr3.wf t) (hC : ∀ t ∈ x0 :: rest, t.d0 = x0.d0) :
    ∃ b, Nested4DTensor.from_tensors (x0 :: rest) padValue = Except.ok b ∧
      Nested4DTensor.to_list b = x0 :: rest := by
  refine ⟨_, from_tensors4_eq x0 rest padValue hC, ?_⟩
  unfold Nested4DTensor.to_list
  dsimp only
  apply list_ext_getD (Arr3.mk 0 0 0 [])
  · simp
  · intro i hi
    have hi2 : i < (x0 :: rest).length := by simpa using hi
    rw [getD_rangeMap _ _ _ _ (by simpa using hi)]
    have hmem : (x0 :: rest).getD i ⟨0, 0, 0, []⟩ ∈ x0 :: rest := by
      rw [List.getD_eq_getElem _ _ hi2]
      exact List.getElem_mem hi2
    have hwt := hw _ hmem
    rw [getD_map_lt (fun t => (t.d1, t.d2)) (x0 :: rest) i (0, 0) ⟨0, 0, 0, []⟩ hi2,
      getD_map_lt _ (x0 :: rest) i [] ⟨0, 0, 0, []⟩ hi2]
    dsimp only
    rw [List.map_map]
    rw [map_eq_self_of_id _ _ ?hch]
    case hch =>
      intro ch hch
      have hch1 : ch.length = ((x0 :: rest).getD i ⟨0, 0, 0, []⟩).d1 := (hwt.2 ch hch).1
      have hch2 : ∀ r ∈ ch, r.length = ((x0 :: rest).getD i ⟨0, 0, 0, []⟩).d2 :=
        (hwt.2 ch hch).2
      show ((placeCanvas ch _ _ _ _).take _).map _ = ch
      unfold placeCanvas
      rw [show ((x0 :: rest).getD i ⟨0, 0, 0, []⟩).d1 =
          (ch.map (fun r => r ++ List.replicate (listMax ((x0 :: rest).map Arr3.d2) -
            ((x0 :: rest).getD i ⟨0, 0, 0, []⟩).d2) padValue)).length from by
        simp [hch1]]
      rw [List.take_left, List.map_map]
      apply map_eq_self_of_id
      intro r hr
      show (r ++ _).take _ = r
      rw [← hch2 r hr, List.take_left]
    rw [Nat.min_eq_left (le_listMax _ _ (List.mem_map_of_mem Arr3.d1 hmem)),
      Nat.min_eq_left (le_listMax _ _ (List.mem_map_of_mem Arr3.d2 hmem))]
    exact arr3_fields_eq _ _ (hC _ hmem).symm rfl rfl rfl

theorem from_tensors3_ok_inv (xs : List (Arr2 Int)) (padValue : Int) (b : Nested3DTensor)
    (h : Nested3DTensor.from_tensors xs padValue = Except.ok b) :
    b._sizes = xs.map Arr2.d0 ∧ b._tensor.d0 = xs.length ∧
      b._tensor.d1 = listMax (xs.map Arr2.d0) ∧ b._mask = none := by
  match xs with
  | [] => exact absurd h (by simp [Nested3DTensor.from_tensors, pad_sequence])
  | x0 :: rest =>
    simp only [Nested3DTensor.from_tensors, pad_sequence] at h
    split at h
    · exact absurd h (by simp)
    · next t heq =>
      split at heq
      · exact absurd heq (by simp)
      · obtain rfl := (Except.ok.inj heq).symm
        simp only [Nested3DTensor.init] at h
        split at h
        · obtain rfl := Except.ok.inj h
          exact ⟨rfl, rfl, rfl, rfl⟩
        · exact absurd h (by simp)

theorem from_tensors4_ok_inv (xs : List (Arr3 Int)) (padValue : Int) (b : Nested4DTensor)
    (h : Nested4DTensor.from_tensors xs padValue = Except.ok b) :
    b._sizes = xs.map (fun t => (t.d1, t.d2)) ∧ b._tensor.d0 = xs.length ∧
      b._tensor.d2 = listMax (xs.map Arr3.d1) ∧
      b._tensor.d3 = listMax (xs.map Arr3.d2) ∧ b._mask = none := by
  match xs with
  | [] => exact absurd h (by simp [Nested4DTensor.from_tensors])
  | x0 :: rest =>
    simp only [Nested4DTensor.from_tensors] at h
    split at h
    · exact absurd h (by simp)
    · simp only [Nested4DTensor.init] at h
      split at h
      · obtain rfl := Except.ok.inj h
        exact ⟨rfl, rfl, rfl, rfl, rfl⟩
      · exact absurd h (by simp)

theorem flatten_eq (b : Nested4DTensor) (hinv : b._tensor.d0 = b._sizes.length) :
    Nested4DTensor.flatten b =
      Except.ok ⟨(Arr4.flatten2 b._tensor).transpose12,
        b._sizes.map (fun hw => hw.1 * hw.2),
        match b._mask with
        | some m => some (Arr3.flatten1 m)
        | none => none⟩ := by
  simp only [Nested4DTensor.flatten, Nested3DTensor.init]
  rw [if_pos (by simp [Arr4.flatten2, Arr3.transpose12, hinv])]

theorem transpose2_at (r c : Nat) (m : List (List Int)) (j i : Nat) (d : Int)
    (hj : j < c) (hi : i < r) :
    ((transpose2 r c m).getD j []).getD i d = (m.getD i []).getD j 0 := by
  unfold transpose2
  rw [getD_rangeMap _ _ _ _ hj, getD_rangeMap _ _ _ _ hi]

/-- Claim C1: for every non-empty sequence of well-formed 2D arrays sharing
feature width D (resp. 3D arrays sharing channel count C) and every pad
value, `to_list (from_tensors xs pad)` returns exactly the original
sequence: padding and unpadding lose nothing. -/
theorem C1_round_trip :
    (∀ (x0 : Arr2 Int) (rest : List (Arr2 Int)) (padValue : Int),
      (∀ t ∈ x0 :: rest, Arr2.wf t) → (∀ t ∈ x0 :: rest, t.d1 = x0.d1) →
      ∃ b, Nested3DTensor.from_tensors (x0 :: rest) padValue = Except.ok b ∧
        Nested3DTensor.to_list b = x0 :: rest) ∧
    (∀ (y0 : Arr3 Int) (rest : List (Arr3 Int)) (padValue : Int),
      (∀ t ∈ y0 :: rest, Arr3.wf t) → (∀ t ∈ y0 :: rest, t.d0 = y0.d0) →
      ∃ b, Nested4DTensor.from_tensors (y0 :: rest) padValue = Except.ok b ∧
        Nested4DTensor.to_list b = y0 :: rest) :=
  ⟨round_trip3, round_trip4⟩

/-- Witness for C1 at the concrete scenario of the spec: elements
`[[1,2],[3,4],[5,6]]` and `[[7,8]]` with pad value 0. -/
theorem C1_round_trip_witness :
    (∀ t ∈ [(⟨3, 2, [[1, 2], [3, 4], [5, 6]]⟩ : Arr2 Int), ⟨1, 2, [[7, 8]]⟩], Arr2.wf t) ∧
    (∃ b, Nested3DTensor.from_tensors
        [(⟨3, 2, [[1, 2], [3, 4], [5, 6]]⟩ : Arr2 Int), ⟨1, 2, [[7, 8]]⟩] 0 = Except.ok b ∧
      Nested3DTensor.to_list b =
        [(⟨3, 2, [[1, 2], [3, 4], [5, 6]]⟩ : Arr2 Int), ⟨1, 2, [[7, 8]]⟩]) :=
  ⟨by decide, C1_round_trip.1 ⟨3, 2, [[1, 2], [3, 4], [5, 6]]⟩ [⟨1, 2, [[7, 8]]⟩] 0
    (by decide) (by decide)⟩

/-- Claim C2: on every batch built by `from_tensors`, the padding mask is
exactly the complement of the per-sample extents: in the 2D case entry
`(i, j)` is `true` iff `j ≥ lengths[i]`, in the 3D case entry `(i, y, x)` is
`true` iff `y ≥ h_i` or `x ≥ w_i`. -/
theorem C2_mask_correctness :
    (∀ (xs : List (Arr2 Int)) (padValue : Int) (b : Nested3DTensor),
      Nested3DTensor.from_tensors xs padValue = Except.ok b →
      ∀ i j : Nat, i < b._tensor.d0 → j < b._tensor.d1 →
        (at2 (Nested3DTensor.mask b).1 i j false = true ↔ b._sizes.getD i 0 ≤ j)) ∧
    (∀ (xs : List (Arr3 Int)) (padValue : Int) (b : Nested4DTensor),
      Nested4DTensor.from_tensors xs padValue = Except.ok b →
      ∀ i y x : Nat, i < b._tensor.d0 → y < b._tensor.d2 → x < b._tensor.d3 →
        (at3 (Nested4DTensor.mask b).1 i y x false = true ↔
          (b._sizes.getD i (0, 0)).1 ≤ y ∨ (b._sizes.getD i (0, 0)).2 ≤ x)) := by
  constructor
  · intro xs padValue b h i j hi hj
    obtain ⟨hs, hd0, _, hm⟩ := from_tensors3_ok_inv xs padValue b h
    have hinv : b._sizes.length = b._tensor.d0 := by rw [hs, hd0, List.length_map]
    rw [show (Nested3DTensor.mask b).1 = Nested3DTensor.computeMask b from by
      simp [Nested3DTensor.mask, hm]]
    rw [computeMask3_at b hinv i j false hi hj]
    simp
  · intro xs padValue b h i y x hi hy hx
    obtain ⟨hs, hd0, _, _, hm⟩ := from_tensors4_ok_inv xs padValue b h
    have hinv : b._sizes.length = b._tensor.d0 := by rw [hs, hd0, List.length_map]
    rw [show (Nested4DTensor.mask b).1 = Nested4DTensor.computeMask b from by
      simp [Nested4DTensor.mask, hm]]
    rw [computeMask4_at b hinv i y x false hi hy hx]
    simp

/-- Witness for C2 at the concrete scenario of the spec: in the built batch,
`mask[1, 2]` is `true` and indeed `2 ≥ lengths[1] = 1`. -/
theorem C2_mask_correctness_witness :
    Nested3DTensor.from_tensors
        [(⟨3, 2, [[1, 2], [3, 4], [5, 6]]⟩ : Arr2 Int), ⟨1, 2, [[7, 8]]⟩] 0 =
      Except.ok ⟨⟨2, 3, 2, [[[1, 2], [3, 4], [5, 6]], [[7, 8], [0, 0], [0, 0]]]⟩,
        [3, 1], none⟩ ∧
    (at2 (Nested3DTensor.mask
        (⟨⟨2, 3, 2, [[[1, 2], [3, 4], [5, 6]], [[7, 8], [0, 0], [0, 0]]]⟩,
          [3, 1], none⟩ : Nested3DTensor)).1 1 2 false = true ↔
      (⟨⟨2, 3, 2, [[[1, 2], [3, 4], [5, 6]], [[7, 8], [0, 0], [0, 0]]]⟩,
          [3, 1], none⟩ : Nested3DTensor)._sizes.getD 1 0 ≤ 2) :=
  ⟨by decide, C2_mask_correctness.1
    [(⟨3, 2, [[1, 2], [3, 4], [5, 6]]⟩ : Arr2 Int), ⟨1, 2, [[7, 8]]⟩] 0
    ⟨⟨2, 3, 2, [[[1, 2], [3, 4], [5, 6]], [[7, 8], [0, 0], [0, 0]]]⟩, [3, 1], none⟩
    (by decide) 1 2 (by decide) (by decide)⟩

/-- Claim C5: `to` builds a new container and does not mutate the receiver:
the receiver after the call is unchanged, and the new container carries the
receiver's tensor, the same sizes, and — exactly when a mask was cached — the
moved cached mask. -/
theorem C5_to_purity :
    (∀ b : Nested3DTensor,
      (Nested3DTensor.to b).2 = b ∧
      (Nested3DTensor.to b).1._tensor = b._tensor ∧
      (Nested3DTensor.to b).1._sizes = b._sizes ∧
      (b._mask = none → (Nested3DTensor.to b).1._mask = none) ∧
      (∀ m, b._mask = some m → (Nested3DTensor.to b).1._mask = some m)) ∧
    (∀ b : Nested4DTensor,
      (Nested4DTensor.to b).2 = b ∧
      (Nested4DTensor.to b).1._tensor = b._tensor ∧
      (Nested4DTensor.to b).1._sizes = b._sizes ∧
      (b._mask = none → (Nested4DTensor.to b).1._mask = none) ∧
      (∀ m, b._mask = some m → (Nested4DTensor.to b).1._mask = some m)) := by
  constructor
  · intro b
    exact ⟨rfl, rfl, rfl, fun h => by simp [Nested3DTensor.to, h],
      fun m h => by simp [Nested3DTensor.to, h]⟩
  · intro b
    exact ⟨rfl, rfl, rfl, fun h => by simp [Nested4DTensor.to, h],
      fun m h => by simp [Nested4DTensor.to, h]⟩

/-- Witness for C5 on a container with a cached mask. -/
theorem C5_to_purity_witness :
    (Nested3DTensor.to ⟨⟨1, 1, 1, [[[5]]]⟩, [1], some ⟨1, 1, [[false]]⟩⟩).2 =
      ⟨⟨1, 1, 1, [[[5]]]⟩, [1], some ⟨1, 1, [[false]]⟩⟩ ∧
    (Nested3DTensor.to ⟨⟨1, 1, 1, [[[5]]]⟩, [1], some ⟨1, 1, [[false]]⟩⟩).1._mask =
      some ⟨1, 1, [[false]]⟩ :=
  ⟨(C5_to_purity.1 ⟨⟨1, 1, 1, [[[5]]]⟩, [1], some ⟨1, 1, [[false]]⟩⟩).1,
    (C5_to_purity.1 ⟨⟨1, 1, 1, [[[5]]]⟩, [1], some ⟨1, 1, [[false]]⟩⟩).2.2.2.2
      ⟨1, 1, [[false]]⟩ rfl⟩

/-- Claim C6: the first call to `mask` computes the mask from the stored
sizes and caches it; a call on a cached instance returns the cached value
unchanged; no call alters the tensor or the sizes; and a second call returns
a bit-identical value and leaves the state fixed (the cache transition
happens at most once and is never reversed). -/
theorem C6_mask_caching :
    (∀ b : Nested3DTensor,
      (b._mask = none → Nested3DTensor.mask b =
        (Nested3DTensor.computeMask b,
          ⟨b._tensor, b._sizes, some (Nested3DTensor.computeMask b)⟩)) ∧
      (∀ m, b._mask = some m → Nested3DTensor.mask b = (m, b)) ∧
      (Nested3DTensor.mask b).2._tensor = b._tensor ∧
      (Nested3DTensor.mask b).2._sizes = b._sizes ∧
      Nested3DTensor.mask (Nested3DTensor.mask b).2 =
        ((Nested3DTensor.mask b).1, (Nested3DTensor.mask b).2)) ∧
    (∀ b : Nested4DTensor,
      (b._mask = none → Nested4DTensor.mask b =
        (Nested4DTensor.computeMask b,
          ⟨b._tensor, b._sizes, some (Nested4DTensor.computeMask b)⟩)) ∧
      (∀ m, b._mask = some m → Nested4DTensor.mask b = (m, b)) ∧
      (Nested4DTensor.mask b).2._tensor = b._tensor ∧
      (Nested4DTensor.mask b).2._sizes = b._sizes ∧
      Nested4DTensor.mask (Nested4DTensor.mask b).2 =
        ((Nested4DTensor.mask b).1, (Nested4DTensor.mask b).2)) := by
  constructor
  · intro b
    rcases hb : b._mask with _ | m
    · refine ⟨fun _ => by simp [Nested3DTensor.mask, hb], fun m hm => ?_, ?_, ?_, ?_⟩
      · simp at hm
      all_goals simp [Nested3DTensor.mask, hb]
    · refine ⟨fun hn => ?_, fun m2 hm2 => ?_, ?_, ?_, ?_⟩
      · simp at hn
      · obtain rfl := Option.some.inj hm2
        simp [Nested3DTensor.mask, hb]
      all_goals simp [Nested3DTensor.mask, hb]
  · intro b
    rcases hb : b._mask with _ | m
    · refine ⟨fun _ => by simp [Nested4DTensor.mask, hb], fun m hm => ?_, ?_, ?_, ?_⟩
      · simp at hm
      all_goals simp [Nested4DTensor.mask, hb]
    · refine ⟨fun hn => ?_, fun m2 hm2 => ?_, ?_, ?_, ?_⟩
      · simp at hn
      · obtain rfl := Option.some.inj hm2
        simp [Nested4DTensor.mask, hb]
      all_goals simp [Nested4DTensor.mask, hb]

/-- Witness for C6: first call on an uncached container computes and caches. -/
theorem C6_mask_caching_witness :
    (⟨⟨1, 1, 1, [[[5]]]⟩, [1], none⟩ : Nested3DTensor)._mask = none ∧
    Nested3DTensor.mask ⟨⟨1, 1, 1, [[[5]]]⟩, [1], none⟩ =
      (Nested3DTensor.computeMask ⟨⟨1, 1, 1, [[[5]]]⟩, [1], none⟩,
        ⟨⟨1, 1, 1, [[[5]]]⟩, [1],
          some (Nested3DTensor.computeMask ⟨⟨1, 1, 1, [[[5]]]⟩, [1], none⟩)⟩) :=
  ⟨rfl, (C6_mask_caching.1 ⟨⟨1, 1, 1, [[[5]]]⟩, [1], none⟩).1 rfl⟩

/-- Claim C8: `from_tensors` on an empty element list fails for both
containers, for every pad value: an error is raised and no container is
produced. -/
theorem C8_empty_batch (padValue : Int) :
    (∃ e, Nested3DTensor.from_tensors [] padValue = Except.error e) ∧
    (∃ e, Nested4DTensor.from_tensors [] padValue = Except.error e) :=
  ⟨⟨"received an empty list of sequences", rfl⟩, ⟨"list index out of range", rfl⟩⟩

/-- Claim C10: the direct constructors fail exactly when the leading
dimension of the padded tensor differs from the number of sizes, and check
nothing else; in particular a size exceeding the padded extent is accepted,
and `mask` on such an instance returns normally, marking every position of
that row (up to the padded extent) as real data. -/
theorem C10_constructor_checks :
    (∀ (t : Arr3 Int) (s : List Nat) (m : Option (Arr2 Bool)),
      (∃ b, Nested3DTensor.init t s m = Except.ok b) ↔ t.d0 = s.length) ∧
    (∀ (t : Arr4 Int) (s : List (Nat × Nat)) (m : Option (Arr3 Bool)),
      (∃ b, Nested4DTensor.init t s m = Except.ok b) ↔ t.d0 = s.length) ∧
    (∀ (t : Arr3 Int) (s : List Nat) (b : Nested3DTensor) (i : Nat),
      Nested3DTensor.init t s none = Except.ok b → i < t.d0 →
      t.d1 < s.getD i 0 →
      ∀ j : Nat, j < t.d1 → at2 (Nested3DTensor.mask b).1 i j true = false) ∧
    (∀ (t : Arr4 Int) (s : List (Nat × Nat)) (b : Nested4DTensor) (i : Nat),
      Nested4DTensor.init t s none = Except.ok b → i < t.d0 →
      t.d2 < (s.getD i (0, 0)).1 → t.d3 < (s.getD i (0, 0)).2 →
      ∀ y x : Nat, y < t.d2 → x < t.d3 →
        at3 (Nested4DTensor.mask b).1 i y x true = false) := by
  refine ⟨?_, ?_, ?_, ?_⟩
  · intro t s m
    constructor
    · rintro ⟨b, hb⟩
      by_contra hne
      simp [Nested3DTensor.init, hne] at hb
    · intro he
      exact ⟨⟨t, s, m⟩, by simp [Nested3DTensor.init, he]⟩
  · intro t s m
    constructor
    · rintro ⟨b, hb⟩
      by_contra hne
      simp [Nested4DTensor.init, hne] at hb
    · intro he
      exact ⟨⟨t, s, m⟩, by simp [Nested4DTensor.init, he]⟩
  · intro t s b i hinit hi hlen j hj
    have hd0 : t.d0 = s.length := by
      by_contra hne
      simp [Nested3DTensor.init, hne] at hinit
    simp only [Nested3DTensor.init, if_pos hd0] at hinit
    obtain rfl := Except.ok.inj hinit
    rw [show (Nested3DTensor.mask (⟨t, s, none⟩ : Nested3DTensor)).1 =
        Nested3DTensor.computeMask ⟨t, s, none⟩ from by simp [Nested3DTensor.mask]]
    rw [computeMask3_at ⟨t, s, none⟩ hd0.symm i j true hi hj]
    dsimp only
    exact decide_eq_false (by omega)
  · intro t s b i hinit hi hh hw y x hy hx
    have hd0 : t.d0 = s.length := by
      by_contra hne
      simp [Nested4DTensor.init, hne] at hinit
    simp only [Nested4DTensor.init, if_pos hd0] at hinit
    obtain rfl := Except.ok.inj hinit
    rw [show (Nested4DTensor.mask (⟨t, s, none⟩ : Nested4DTensor)).1 =
        Nested4DTensor.computeMask ⟨t, s, none⟩ from by simp [Nested4DTensor.mask]]
    rw [computeMask4_at ⟨t, s, none⟩ hd0.symm i y x true hi hy hx]
    dsimp only
    have h1 : ¬ ((s.getD i (0, 0)).1 ≤ y) := by omega
    have h2 : ¬ ((s.getD i (0, 0)).2 ≤ x) := by omega
    exact decide_eq_false (by tauto)

/-- Witness for C10: an instance whose recorded length 5 exceeds the padded
extent 2 is accepted, and its mask marks position `(0, 1)` as real data. -/
theorem C10_constructor_checks_witness :
    Nested3DTensor.init ⟨1, 2, 3, [[[1, 2, 3], [4, 5, 6]]]⟩ [5] none =
      Except.ok ⟨⟨1, 2, 3, [[[1, 2, 3], [4, 5, 6]]]⟩, [5], none⟩ ∧
    at2 (Nested3DTensor.mask ⟨⟨1, 2, 3, [[[1, 2, 3], [4, 5, 6]]]⟩, [5], none⟩).1 0 1 true
      = false :=
  ⟨by decide, C10_constructor_checks.2.2.1 ⟨1, 2, 3, [[[1, 2, 3], [4, 5, 6]]]⟩ [5]
    ⟨⟨1, 2, 3, [[[1, 2, 3], [4, 5, 6]]]⟩, [5], none⟩ 0 (by decide) (by decide) (by decide)
    1 (by decide)⟩

/-- Claim C4: `flatten` on a well-formed 3D batch returns a 2D batch whose
data has shape `[N, H·W, C]` with `data'[i, y·W + x, c] = data[i, c, y, x]`
(row-major collapse of the spatial axes, channel axis becoming the feature
axis), whose lengths are `h_i · w_i`, and whose mask is the row-major
flattening of the source's cached mask, carried over as already cached, when
the source mask was computed — and remains uncomputed otherwise. -/
theorem C4_flatten_reinterpretation (b : Nested4DTensor) (f : Nested3DTensor)
    (hwf : Arr4.wf b._tensor) (hinv : b._tensor.d0 = b._sizes.length)
    (hmwf : ∀ m, b._mask = some m → m.d0 = b._tensor.d0 ∧ m.d1 = b._tensor.d2 ∧
      m.d2 = b._tensor.d3 ∧ Arr3.wf m)
    (hf : Nested4DTensor.flatten b = Except.ok f) :
    f._tensor.d0 = b._tensor.d0 ∧
    f._tensor.d1 = b._tensor.d2 * b._tensor.d3 ∧
    f._tensor.d2 = b._tensor.d1 ∧
    (∀ i c y x : Nat, i < b._tensor.d0 → c < b._tensor.d1 → y < b._tensor.d2 →
      x < b._tensor.d3 →
      at3 f._tensor i (y * b._tensor.d3 + x) c 0 = at4 b._tensor i c y x 0) ∧
    f._sizes = b._sizes.map (fun hw => hw.1 * hw.2) ∧
    (b._mask = none → f._mask = none) ∧
    (∀ m, b._mask = some m → f._mask = some (Arr3.flatten1 m) ∧
      (Arr3.flatten1 m).d0 = b._tensor.d0 ∧
      (Arr3.flatten1 m).d1 = b._tensor.d2 * b._tensor.d3 ∧
      ∀ i y x : Nat, i < b._tensor.d0 → y < b._tensor.d2 → x < b._tensor.d3 →
        at2 (Arr3.flatten1 m) i (y * b._tensor.d3 + x) false = at3 m i y x false) := by
  rw [flatten_eq b hinv] at hf
  obtain rfl := Except.ok.inj hf
  refine ⟨rfl, rfl, rfl, ?_, rfl, ?_, ?_⟩
  · intro i c y x hi hc hy hx
    unfold at3 at4 Arr3.transpose12 Arr4.flatten2
    dsimp only
    have hlen : b._tensor.elts.length = b._tensor.d0 := hwf.1
    have hK : y * b._tensor.d3 + x < b._tensor.d2 * b._tensor.d3 := index_lt y x _ _ hy hx
    have h1 : i < (b._tensor.elts.map (fun chs => chs.map listJoin)).length := by
      rw [List.length_map, hlen]; exact hi
    have h2 : i < b._tensor.elts.length := by rw [hlen]; exact hi
    rw [getD_map_lt _ _ i [] [] h1, getD_map_lt _ _ i [] [] h2]
    have hmemT : b._tensor.elts.getD i [] ∈ b._tensor.elts := by
      rw [List.getD_eq_getElem _ _ h2]
      exact List.getElem_mem _
    have hchs := hwf.2 _ hmemT
    have h3 : c < (b._tensor.elts.getD i []).length := by rw [hchs.1]; exact hc
    rw [transpose2_at _ _ _ _ _ _ hK hc, getD_map_lt listJoin _ c [] [] h3]
    have hmemC : (b._tensor.elts.getD i []).getD c [] ∈ b._tensor.elts.getD i [] := by
      rw [List.getD_eq_getElem _ _ h3]
      exact List.getElem_mem _
    have hch := hchs.2 _ hmemC
    have h4 : y < ((b._tensor.elts.getD i []).getD c []).length := by
      rw [hch.1]; exact hy
    rw [listJoin_getD _ _ _ y x (fun r hr => (hch.2 r hr)) h4 hx]
  · intro hnone
    rw [hnone]
  · intro m hm
    rw [hm]
    obtain ⟨hm0, hm1, hm2, hmw⟩ := hmwf m hm
    refine ⟨rfl, by rw [show (Arr3.flatten1 m).d0 = m.d0 from rfl, hm0],
      by rw [show (Arr3.flatten1 m).d1 = m.d1 * m.d2 from rfl, hm1, hm2], ?_⟩
    intro i y x hi hy hx
    unfold at2 at3 Arr3.flatten1
    dsimp only
    have h5 : i < m.elts.length := by rw [hmw.1, hm0]; exact hi
    rw [getD_map_lt listJoin _ i [] [] h5]
    have hmemM : m.elts.getD i [] ∈ m.elts := by
      rw [List.getD_eq_getElem _ _ h5]
      exact List.getElem_mem _
    have hrow := hmw.2 _ hmemM
    have hx2 : x < m.d2 := by rw [hm2]; exact hx
    have h6 : y < (m.elts.getD i []).length := by rw [hrow.1, hm1]; exact hy
    have hK : y * b._tensor.d3 + x = y * m.d2 + x := by rw [hm2]
    rw [hK, listJoin_getD _ _ _ y x (fun r hr => (hrow.2 r hr)) h6 hx2]

theorem maskRows2d_length :
    ∀ (ls : List (Nat × Nat)) (ms : List (List (List Bool))),
      (maskRows2d ls ms).length = ms.length := by
  intro ls
  induction ls with
  | nil => intro ms; rfl
  | cons hw ls ih =>
    intro ms
    match ms with
    | [] => rfl
    | m :: ms => simp only [maskRows2d, List.length_cons, ih ms]

/-- Witness for C4 on a concrete two-image batch carrying a cached mask. -/
theorem C4_flatten_reinterpretation_witness :
    Nested4DTensor.flatten
        ⟨⟨2, 1, 2, 2, [[[[1, 0], [2, 0]]], [[[3, 4], [0, 0]]]]⟩, [(2, 1), (1, 2)],
          some ⟨2, 2, 2, [[[false, true], [false, true]], [[false, false], [true, true]]]⟩⟩ =
      Except.ok ⟨⟨2, 4, 1, [[[1], [0], [2], [0]], [[3], [4], [0], [0]]]⟩, [2, 2],
        some ⟨2, 4, [[false, true, false, true], [false, false, true, true]]⟩⟩ ∧
    at3 (⟨2, 4, 1, [[[1], [0], [2], [0]], [[3], [4], [0], [0]]]⟩ : Arr3 Int) 0 2 0 0 =
      at4 (⟨2, 1, 2, 2, [[[[1, 0], [2, 0]]], [[[3, 4], [0, 0]]]]⟩ : Arr4 Int) 0 0 1 0 0 :=
  ⟨by decide,
    (C4_flatten_reinterpretation
      ⟨⟨2, 1, 2, 2, [[[[1, 0], [2, 0]]], [[[3, 4], [0, 0]]]]⟩, [(2, 1), (1, 2)],
        some ⟨2, 2, 2, [[[false, true], [false, true]], [[false, false], [true, true]]]⟩⟩
      ⟨⟨2, 4, 1, [[[1], [0], [2], [0]], [[3], [4], [0], [0]]]⟩, [2, 2],
        some ⟨2, 4, [[false, true, false, true], [false, false, true, true]]⟩⟩
      (by decide) (by decide)
      (fun m hm => by
        obtain rfl := Option.some.inj hm
        exact ⟨rfl, rfl, rfl, by decide⟩)
      (by decide)).2.2.2.1 0 0 1 0 (by decide) (by decide) (by decide) (by decide)⟩

/-- Claim C3 (amended): when the source mask has been computed before the
call to `flatten`, the mask observed on the flattened batch equals the
row-major flattening of the source's mask: `flatten(b).mask()[i, y·W + x] =
b.mask()[i, y, x]`.  (When the source mask was not cached this fails — see
the counterexample.) -/
theorem C3_flatten_mask_cached (b : Nested4DTensor) (f : Nested3DTensor)
    (hnone : b._mask = none) (hinv : b._tensor.d0 = b._sizes.length)
    (hf : Nested4DTensor.flatten (Nested4DTensor.mask b).2 = Except.ok f)
    (i y x : Nat) (hi : i < b._tensor.d0) (hy : y < b._tensor.d2)
    (hx : x < b._tensor.d3) :
    at2 (Nested3DTensor.mask f).1 i (y * b._tensor.d3 + x) false
      = at3 (Nested4DTensor.mask b).1 i y x false := by
  have hmask : Nested4DTensor.mask b =
      (Nested4DTensor.computeMask b,
        ⟨b._tensor, b._sizes, some (Nested4DTensor.computeMask b)⟩) := by
    simp [Nested4DTensor.mask, hnone]
  rw [hmask] at hf
  dsimp only at hf
  rw [flatten_eq ⟨b._tensor, b._sizes, some (Nested4DTensor.computeMask b)⟩
    (by exact hinv)] at hf
  dsimp only at hf
  obtain rfl := Except.ok.inj hf
  rw [hmask]
  rw [show (Nested3DTensor.mask
      (⟨(Arr4.flatten2 b._tensor).transpose12,
        b._sizes.map (fun hw => hw.1 * hw.2),
        some (Arr3.flatten1 (Nested4DTensor.computeMask b))⟩ : Nested3DTensor)).1 =
      Arr3.flatten1 (Nested4DTensor.computeMask b) from by
    simp [Nested3DTensor.mask]]
  unfold at2 at3 Arr3.flatten1
  dsimp only
  have hrowi : (Nested4DTensor.computeMask b).elts.getD i [] =
      sliceAssignFalse2 (b._sizes.getD i (0, 0)).1 (b._sizes.getD i (0, 0)).2
        (List.replicate b._tensor.d2 (List.replicate b._tensor.d3 true)) :=
    computeMask4_row b hinv.symm i hi
  have hlen : i < (Nested4DTensor.computeMask b).elts.length := by
    show i < (maskRows2d _ _).length
    rw [maskRows2d_length, List.length_replicate]
    exact hi
  rw [getD_map_lt listJoin _ i [] [] hlen, hrowi]
  have hrows : ∀ r ∈ sliceAssignFalse2 (b._sizes.getD i (0, 0)).1
      (b._sizes.getD i (0, 0)).2
      (List.replicate b._tensor.d2 (List.replicate b._tensor.d3 true)),
      r.length = b._tensor.d3 :=
    sliceAssignFalse2_rep_rows _ _ _ _
  have hlen2 : y < (sliceAssignFalse2 (b._sizes.getD i (0, 0)).1
      (b._sizes.getD i (0, 0)).2
      (List.replicate b._tensor.d2 (List.replicate b._tensor.d3 true))).length := by
    rw [sliceAssignFalse2_length, List.length_replicate]
    exact hy
  rw [listJoin_getD _ _ _ y x hrows hlen2 hx]

/-- Counterexample to C3 as stated: on a batch whose mask was never computed
before `flatten`, the mask later computed on the flattened batch marks the
first `h_i·w_i` positions of row `i` as real data, which is not the row-major
flattening of the source mask.  With per-sample sizes `(2, 1)` and `(1, 2)`
(so `W_max = 2`), position `(0, 0·2 + 1)` of the flattened mask is `false`
while source cell `(0, 0, 1)` is `true`. -/
theorem C3_counterexample :
    ((Nested4DTensor.from_tensors [⟨1, 2, 1, [[[1], [2]]]⟩, ⟨1, 1, 2, [[[3, 4]]]⟩] 0).map
      (fun b => (Nested4DTensor.flatten b).map (fun f =>
        (at2 (Nested3DTensor.mask f).1 0 (0 * 2 + 1) false,
         at3 (Nested4DTensor.mask b).1 0 0 1 false)))) =
      Except.ok (Except.ok (false, true)) := by
  rfl

/-- Witness for the amended C3 on a concrete batch whose mask is computed
before flattening. -/
theorem C3_flatten_mask_cached_witness :
    Nested4DTensor.flatten
        (Nested4DTensor.mask
          ⟨⟨2, 1, 2, 2, [[[[1, 0], [2, 0]]], [[[3, 4], [0, 0]]]]⟩, [(2, 1), (1, 2)], none⟩).2 =
      Except.ok ⟨⟨2, 4, 1, [[[1], [0], [2], [0]], [[3], [4], [0], [0]]]⟩, [2, 2],
        some ⟨2, 4, [[false, true, false, true], [false, false, true, true]]⟩⟩ ∧
    at2 (Nested3DTensor.mask
        ⟨⟨2, 4, 1, [[[1], [0], [2], [0]], [[3], [4], [0], [0]]]⟩, [2, 2],
          some ⟨2, 4, [[false, true, false, true], [false, false, true, true]]⟩⟩).1
        0 (0 * 2 + 1) false =
      at3 (Nested4DTensor.mask
        ⟨⟨2, 1, 2, 2, [[[[1, 0], [2, 0]]], [[[3, 4], [0, 0]]]]⟩, [(2, 1), (1, 2)], none⟩).1
        0 0 1 false :=
  ⟨by decide,
    C3_flatten_mask_cached
      ⟨⟨2, 1, 2, 2, [[[[1, 0], [2, 0]]], [[[3, 4], [0, 0]]]]⟩, [(2, 1), (1, 2)], none⟩
      ⟨⟨2, 4, 1, [[[1], [0], [2], [0]], [[3], [4], [0], [0]]]⟩, [2, 2],
        some ⟨2, 4, [[false, true, false, true], [false, false, true, true]]⟩⟩
      rfl (by decide) (by decide) 0 0 1 (by decide) (by decide) (by decide)⟩

/-- Claim C7: `from_str` over an environment with `n` CUDA devices parses
"cpu" to the CPU context; parses "cuda:1" to CUDA index 1 when `n ≥ 2` and
fails when `n ≤ 1`; fails whenever the kind is unrecognized, the index does
not parse as an integer, the index is negative, or the index is out of range;
and ignores any index supplied for the CPU kind. -/
theorem C7_context_parsing (n : Nat) :
    Device.from_str n "cpu".toList = Except.ok ⟨DeviceType.CPU, none⟩ ∧
    (2 ≤ n → Device.from_str n "cuda:1".toList = Except.ok ⟨DeviceType.CUDA, some 1⟩) ∧
    (n ≤ 1 → ∃ e, Device.from_str n "cuda:1".toList = Except.error e) ∧
    (∀ (t : PyStr) (i : Option Int) (e0 : String),
      DeviceType.from_str t = Except.error e0 → ∃ e, Device.init n t i = Except.error e) ∧
    (∀ i : Int, i < 0 → ∃ e, Device.init n "cuda".toList (some i) = Except.error e) ∧
    (∀ i : Int, 0 ≤ i → (n : Int) ≤ i →
      ∃ e, Device.init n "cuda".toList (some i) = Except.error e) ∧
    (∀ v p q : PyStr, pySplit ':' v = [p, q] → (∀ k, pyInt q ≠ Except.ok k) →
      ∃ e, Device.from_str n v = Except.error e) ∧
    (∀ i : Option Int, Device.init n "cpu".toList i = Except.ok ⟨DeviceType.CPU, none⟩) := by
  refine ⟨rfl, ?_, ?_, ?_, ?_, ?_, ?_, ?_⟩
  · intro h2
    rw [show Device.from_str n ("cuda:1".toList) = Device.init n ("cuda".toList) (some 1)
      from rfl]
    unfold Device.init
    rw [show DeviceType.from_str ("cuda".toList) = Except.ok DeviceType.CUDA from rfl]
    dsimp only [Option.getD]
    rw [if_neg (by norm_num), if_neg (by omega)]
    rfl
  · intro h1
    rw [show Device.from_str n ("cuda:1".toList) = Device.init n ("cuda".toList) (some 1)
      from rfl]
    unfold Device.init
    rw [show DeviceType.from_str ("cuda".toList) = Except.ok DeviceType.CUDA from rfl]
    dsimp only [Option.getD]
    rw [if_neg (by norm_num), if_pos (by omega)]
    exact ⟨_, rfl⟩
  · intro t i e0 h0
    unfold Device.init
    rw [h0]
    exact ⟨e0, rfl⟩
  · intro i hi
    unfold Device.init
    rw [show DeviceType.from_str ("cuda".toList) = Except.ok DeviceType.CUDA from rfl]
    dsimp only [Option.getD]
    rw [if_pos hi]
    exact ⟨_, rfl⟩
  · intro i h0 hn
    unfold Device.init
    rw [show DeviceType.from_str ("cuda".toList) = Except.ok DeviceType.CUDA from rfl]
    dsimp only [Option.getD]
    rw [if_neg (by omega), if_pos hn]
    exact ⟨_, rfl⟩
  · intro v p q hsplit hbad
    unfold Device.from_str
    rw [hsplit]
    rcases hq : pyInt q with e | k
    · refine ⟨e, ?_⟩
      show (match pyInt q with
        | Except.error e => Except.error e
        | Except.ok i => Device.init n p (some i)) = Except.error e
      rw [hq]
    · exact absurd hq (hbad k)
  · intro i
    unfold Device.init
    rw [show DeviceType.from_str ("cpu".toList) = Except.ok DeviceType.CPU from rfl]

/-- Witness for C7 with 2 devices (and 1 device for the failure clause). -/
theorem C7_context_parsing_witness :
    Device.from_str 2 "cpu".toList = Except.ok ⟨DeviceType.CPU, none⟩ ∧
    Device.from_str 2 "cuda:1".toList = Except.ok ⟨DeviceType.CUDA, some 1⟩ ∧
    (∃ e, Device.from_str 1 "cuda:1".toList = Except.error e) ∧
    Device.init 2 "cpu".toList (some 5) = Except.ok ⟨DeviceType.CPU, none⟩ :=
  ⟨(C7_context_parsing 2).1, (C7_context_parsing 2).2.1 (by norm_num),
    (C7_context_parsing 1).2.2.1 (by norm_num),
    (C7_context_parsing 2).2.2.2.2.2.2.2 (some 5)⟩

/-- Claim C9 (amended): construction fails with a surfaced error whenever
some element disagrees with the first element on the fixed dimension
(feature width D, resp. channel count C) and that element's fixed dimension
is not 1; an element whose fixed dimension is 1 is instead silently broadcast
to the first element's width (see the counterexample). -/
theorem C9_shape_mismatch :
    (∀ (x0 : Arr2 Int) (rest : List (Arr2 Int)) (padValue : Int) (t : Arr2 Int),
      t ∈ x0 :: rest → t.d1 ≠ x0.d1 → t.d1 ≠ 1 →
      ∃ e, Nested3DTensor.from_tensors (x0 :: rest) padValue = Except.error e) ∧
    (∀ (y0 : Arr3 Int) (rest : List (Arr3 Int)) (padValue : Int) (u : Arr3 Int),
      u ∈ y0 :: rest → u.d0 ≠ y0.d0 → u.d0 ≠ 1 →
      ∃ e, Nested4DTensor.from_tensors (y0 :: rest) padValue = Except.error e) := by
  constructor
  · intro x0 rest padValue t ht hne h1
    simp only [Nested3DTensor.from_tensors, pad_sequence]
    have hft : (fun t => match copyBroadcast2 t x0.d1 with
        | Except.error e => Except.error e
        | Except.ok rows => Except.ok (rows ++
            List.replicate (listMax ((x0 :: rest).map Arr2.d0) - t.d0)
              (List.replicate x0.d1 padValue))) t = Except.error "copy size mismatch" := by
      dsimp only
      unfold copyBroadcast2
      rw [if_neg hne, if_neg h1]
    obtain ⟨e2, he2⟩ := exceptMap_error_of_mem (fun t => match copyBroadcast2 t x0.d1 with
      | Except.error e => Except.error e
      | Except.ok rows => Except.ok (rows ++
          List.replicate (listMax ((x0 :: rest).map Arr2.d0) - t.d0)
            (List.replicate x0.d1 padValue))) "copy size mismatch" (x0 :: rest) t ht hft
    rw [he2]
    exact ⟨e2, rfl⟩
  · intro y0 rest padValue u hu hne h1
    simp only [Nested4DTensor.from_tensors]
    have hfu : (fun t => match copyBroadcast3 t y0.d0 with
        | Except.error e => Except.error e
        | Except.ok chs => Except.ok (chs.map (fun ch =>
            placeCanvas ch t.d2 (listMax ((y0 :: rest).map Arr3.d1))
              (listMax ((y0 :: rest).map Arr3.d2)) padValue))) u =
        Except.error "copy size mismatch" := by
      dsimp only
      unfold copyBroadcast3
      rw [if_neg hne, if_neg h1]
    obtain ⟨e2, he2⟩ := exceptMap_error_of_mem (fun t => match copyBroadcast3 t y0.d0 with
      | Except.error e => Except.error e
      | Except.ok chs => Except.ok (chs.map (fun ch =>
          placeCanvas ch t.d2 (listMax ((y0 :: rest).map Arr3.d1))
            (listMax ((y0 :: rest).map Arr3.d2)) padValue))) "copy size mismatch"
      (y0 :: rest) u hu hfu
    rw [he2]
    exact ⟨e2, rfl⟩

/-- Witness for the amended C9: widths 2 and 3 differ (and 3 is not 1), so
2D construction fails. -/
theorem C9_shape_mismatch_witness :
    (⟨1, 3, [[5, 6, 7]]⟩ : Arr2 Int).d1 ≠ (⟨1, 2, [[1, 2]]⟩ : Arr2 Int).d1 ∧
    (⟨1, 3, [[5, 6, 7]]⟩ : Arr2 Int).d1 ≠ 1 ∧
    (∃ e, Nested3DTensor.from_tensors [⟨1, 2, [[1, 2]]⟩, ⟨1, 3, [[5, 6, 7]]⟩] 0 =
      Except.error e) :=
  ⟨by decide, by decide,
    C9_shape_mismatch.1 ⟨1, 2, [[1, 2]]⟩ [⟨1, 3, [[5, 6, 7]]⟩] 0 ⟨1, 3, [[5, 6, 7]]⟩
      (by decide) (by decide) (by decide)⟩

/-- Counterexample to C9 as stated: the two images disagree on the channel
count (2 vs 1), yet construction succeeds and the single channel of the
second image is silently broadcast to both output channels — no error is
surfaced. -/
theorem C9_counterexample :
    Nested4DTensor.from_tensors [⟨2, 1, 1, [[[1]], [[2]]]⟩, ⟨1, 1, 1, [[[3]]]⟩] 0 =
      Except.ok ⟨⟨2, 2, 1, 1, [[[[1]], [[2]]], [[[3]], [[3]]]]⟩, [(1, 1), (1, 1)], none⟩ := by
  rfl
